import Mathlib

/-!
Verification of the discord-sentiment-bot repository.

The definitions below are a shallow embedding of the Python sources:
`src/bot/config.py`, `src/bot/cogs/sentiment.py`, `src/bot/analyzer.py`,
`src/bot/cogs/scheduler.py`, `src/bot/database.py` and their tests.
Text content is modelled as `List Char`; identifiers that only need
equality are modelled as `String`; the random jitter of the backoff is an
explicit rational parameter; the external JSON decoder and the external
language-model call are explicit parameters of the functions that use them.
-/

namespace SentimentBot

/-! ## Configuration (src/bot/config.py) -/

/-- `Config.MONITORED_APPS`: the ordered list of monitored product names. -/
def MONITORED_APPS : List (List Char) :=
  ["cora".toList, "spiral".toList, "sparkle".toList, "monologue".toList]

/-- `Config.MONITORED_CHANNEL_IDS`: the set of monitored channel ids,
stored as decimal strings. -/
def MONITORED_CHANNEL_IDS : List String :=
  ["1019678288618205294",
   "821856844137758730",
   "797477569195671592",
   "1389667062569242644",
   "1395804083801165895",
   "1393267393928630473",
   "1395804228336750672",
   "1395804148825329777",
   "1466104194644836620"]

/-- ASCII lowering of a character sequence, modelling the `.lower()` calls
of the source (the inputs of interest are ASCII). -/
def lowerChars (s : List Char) : List Char := s.map Char.toLower

/-- Modelled from the spec: `Config.mentions_monitored_app` is called from
`SentimentAnalyzer.on_message` and exercised by `TestConfigAppMentions`,
but the method body is absent from `src/bot/config.py`.  Per the spec the
Mention detector is a pure function mapping free text to the subset of
configured product names it references by case-insensitive substring
match, preserving configuration order, deduplicated. -/
def mentions_monitored_app (content : List Char) : List (List Char) :=
  MONITORED_APPS.filter (fun app => decide (app <:+: lowerChars content))

/-- Number of occurrences of `a` in `l`. -/
def countOcc (a : List Char) (l : List (List Char)) : Nat :=
  l.countP (fun x => decide (x = a))

theorem monitored_apps_nodup : MONITORED_APPS.Nodup := by decide

theorem monitored_apps_lower (app : List Char) (h : app ∈ MONITORED_APPS) :
    lowerChars app = app := by
  fin_cases h <;> decide

/-- C2: every text containing a configured product name as a
case-insensitive substring yields a detector result containing that
product exactly once, however often it repeats; a text containing no
configured product name (the empty text included) yields an empty result. -/
theorem mention_detector_spec (text app : List Char) (happ : app ∈ MONITORED_APPS) :
    (lowerChars app <:+: lowerChars text →
      countOcc app (mentions_monitored_app text) = 1) ∧
    ((∀ a ∈ MONITORED_APPS, ¬ (lowerChars a <:+: lowerChars text)) →
      mentions_monitored_app text = []) := by
  constructor
  · intro h
    rw [monitored_apps_lower app happ] at h
    have hmem : app ∈ mentions_monitored_app text := by
      unfold mentions_monitored_app
      rw [List.mem_filter]
      exact ⟨happ, by simpa using h⟩
    exact List.count_eq_one_of_mem
      (List.Nodup.filter (fun a => decide (a <:+: lowerChars text))
        monitored_apps_nodup) hmem
  · intro h
    unfold mentions_monitored_app
    rw [List.filter_eq_nil_iff]
    intro a ha
    have := h a ha
    rw [monitored_apps_lower a ha] at this
    simpa using this

/-- Closed instance of C2: the text of the tests, with the product name
repeated and in mixed case, is detected exactly once; a text mentioning
no product is mapped to the empty list. -/
theorem mention_detector_spec_witness :
    ("cora".toList ∈ MONITORED_APPS ∧
      lowerChars "cora".toList <:+: lowerChars "CORA likes Cora".toList) ∧
    countOcc "cora".toList (mentions_monitored_app "CORA likes Cora".toList) = 1 ∧
    (∀ a ∈ MONITORED_APPS,
      ¬ (lowerChars a <:+: lowerChars "a regular message".toList)) ∧
    mentions_monitored_app "a regular message".toList = [] := by
  refine ⟨⟨by decide, by decide⟩, ?_, by decide, ?_⟩
  · exact (mention_detector_spec "CORA likes Cora".toList "cora".toList
      (by decide)).1 (by decide)
  · exact (mention_detector_spec "a regular message".toList "cora".toList
      (by decide)).2 (by decide)

/-! ## The bounded message queue (src/bot/cogs/sentiment.py)

`SentimentAnalyzer.message_queue` is `deque(maxlen=500)`.  The queue is
modelled as a list with the oldest item at the head: `append` adds at the
tail (evicting the head when full), `appendleft` adds at the head
(evicting the tail when full), as the `collections.deque` maxlen
semantics prescribe. -/

/-- The `maxlen=500` bound of `SentimentAnalyzer.message_queue`. -/
def QUEUE_MAXLEN : Nat := 500

/-- One entry of `message_queue`, as built in `on_message`. -/
structure QueueItem where
  guild_id : String
  channel_id : String
  channel_name : String
  message_id : String
  author_id : String
  author_name : String
  content : List Char
  apps_mentioned : List (List Char)
  timestamp : Nat
  jump_url : String
deriving DecidableEq

/-- `deque.append` under `maxlen`: when the queue is full the oldest
(leftmost) item is silently evicted. -/
def dequeAppend {α : Type} (q : List α) (x : α) : List α :=
  if q.length < QUEUE_MAXLEN then q ++ [x] else q.drop 1 ++ [x]

/-- `deque.appendleft` under `maxlen`: when the queue is full the
rightmost item is silently evicted. -/
def dequeAppendLeft {α : Type} (q : List α) (x : α) : List α :=
  if q.length < QUEUE_MAXLEN then x :: q else x :: q.dropLast

/-- `for msg in reversed(batch): queue.appendleft(msg)` — the re-queue
loop shared by `_handle_rate_limit` and `_handle_api_error`. -/
def requeueFront {α : Type} (q : List α) (batch : List α) : List α :=
  batch.reverse.foldl (fun acc m => dequeAppendLeft acc m) q

theorem requeueFront_cons {α : Type} (q : List α) (a : α) (rest : List α) :
    requeueFront q (a :: rest) = dequeAppendLeft (requeueFront q rest) a := by
  simp [requeueFront, List.foldl_append]

theorem requeueFront_eq {α : Type} (q batch : List α)
    (h : batch.length + q.length ≤ QUEUE_MAXLEN) :
    requeueFront q batch = batch ++ q := by
  induction batch with
  | nil => simp [requeueFront]
  | cons a rest ih =>
    have h1 : rest.length + q.length ≤ QUEUE_MAXLEN := by
      simp only [List.length_cons] at h; omega
    have h2 : (rest ++ q).length < QUEUE_MAXLEN := by
      simp only [List.length_cons] at h
      simp only [List.length_append]
      omega
    rw [requeueFront_cons, ih h1]
    unfold dequeAppendLeft
    rw [if_pos h2]
    rfl

/-- C8: an enqueue via `deque.append` keeps the queue within the 500
bound, and an enqueue onto a full queue evicts the oldest item (the
head) while keeping the new item at the tail, rather than rejecting it. -/
theorem queue_bounded_spec (q : List QueueItem) (x : QueueItem)
    (hq : q.length ≤ QUEUE_MAXLEN) :
    (dequeAppend q x).length ≤ QUEUE_MAXLEN ∧
    (q.length = QUEUE_MAXLEN → dequeAppend q x = q.drop 1 ++ [x]) := by
  unfold dequeAppend
  constructor
  · split
    · simp only [List.length_append, List.length_cons, List.length_nil]
      omega
    · simp only [List.length_append, List.length_drop, List.length_cons,
        List.length_nil]
      unfold QUEUE_MAXLEN at *
      omega
  · intro h
    rw [if_neg (by omega)]

/-- A concrete queue item (the fixture of the sentiment tests). -/
def itemA : QueueItem :=
  { guild_id := "123", channel_id := "456", channel_name := "discussions",
    message_id := "789", author_id := "111", author_name := "TestUser",
    content := "Cora keeps crashing!".toList,
    apps_mentioned := ["cora".toList], timestamp := 0,
    jump_url := "https://discord.com/channels/123/456/789" }

/-- A second concrete queue item with a distinct message id. -/
def itemB : QueueItem :=
  { guild_id := "123", channel_id := "456", channel_name := "discussions",
    message_id := "790", author_id := "112", author_name := "OtherUser",
    content := "Spiral is great".toList,
    apps_mentioned := ["spiral".toList], timestamp := 1,
    jump_url := "https://discord.com/channels/123/456/790" }

/-- Closed instance of C8: a full queue of 500 items stays at 500 after an
enqueue, and the enqueue drops the oldest item while keeping the new one. -/
theorem queue_bounded_spec_witness :
    (List.replicate QUEUE_MAXLEN itemA).length ≤ QUEUE_MAXLEN ∧
    (dequeAppend (List.replicate QUEUE_MAXLEN itemA) itemB).length ≤ QUEUE_MAXLEN ∧
    dequeAppend (List.replicate QUEUE_MAXLEN itemA) itemB =
      (List.replicate QUEUE_MAXLEN itemA).drop 1 ++ [itemB] := by
  have h := queue_bounded_spec (List.replicate QUEUE_MAXLEN itemA) itemB
    (by simp)
  exact ⟨by simp, by simpa using h.1, h.2 (by simp)⟩

/-! ## Batch failure handlers (src/bot/cogs/sentiment.py) -/

/-- `SentimentAnalyzer._max_retries`. -/
def MAX_RETRIES : Nat := 3

/-- The state left by `_handle_rate_limit`: the queue, the retry counter
and the backoff wait actually slept (`none` when the batch is dropped). -/
structure RateLimitOutcome where
  queue : List QueueItem
  retry_count : Nat
  wait : Option ℚ
deriving DecidableEq

/-- `SentimentAnalyzer._handle_rate_limit`: increment the retry counter;
if it is still within `_max_retries`, sleep `2 ** retry + jitter` and
push the batch back through `appendleft` in reversed iteration order;
otherwise drop the batch and reset the counter to zero.  The random
`random.uniform(0, 1)` draw is the explicit `jitter` parameter. -/
def handle_rate_limit (q : List QueueItem) (retry : Nat)
    (batch : List QueueItem) (jitter : ℚ) : RateLimitOutcome :=
  let r := retry + 1
  if r ≤ MAX_RETRIES then
    { queue := requeueFront q batch, retry_count := r,
      wait := some (2 ^ r + jitter) }
  else
    { queue := q, retry_count := 0, wait := none }

/-- `SentimentAnalyzer._handle_api_error`: push the first 20 items of the
batch back through `appendleft` in reversed iteration order; the retry
counter field is not touched. -/
def handle_api_error (q : List QueueItem) (retry : Nat)
    (batch : List QueueItem) : List QueueItem × Nat :=
  (requeueFront q (batch.take 20), retry)

/-- C5: a generic (non-rate-limit) API error re-inserts exactly the first
20 items of the working batch at the front of the queue, in order,
discards the remainder, and leaves the retry counter unchanged. -/
theorem api_error_requeue_spec (q batch : List QueueItem) (retry : Nat)
    (hlen : (batch.take 20).length + q.length ≤ QUEUE_MAXLEN) :
    handle_api_error q retry batch = (batch.take 20 ++ q, retry) := by
  unfold handle_api_error
  rw [requeueFront_eq _ _ hlen]

/-- Closed instance of C5: a batch of 25 items against a queue of one item
re-queues the first 20 items only and keeps the retry counter at 2. -/
theorem api_error_requeue_spec_witness :
    ((List.replicate 25 itemA).take 20).length + [itemB].length ≤ QUEUE_MAXLEN ∧
    handle_api_error [itemB] 2 (List.replicate 25 itemA) =
      ((List.replicate 25 itemA).take 20 ++ [itemB], 2) := by
  exact ⟨by simp [QUEUE_MAXLEN], api_error_requeue_spec [itemB]
    (List.replicate 25 itemA) 2 (by simp [QUEUE_MAXLEN])⟩

/-- C1: a rate-limited drain with the counter still below the ceiling
re-inserts the whole batch at the front of the queue in oldest-first
order and increments the counter, sleeping `2 ^ new_count + jitter`; two
consecutive rate-limit failures produce strictly increasing waits; once
the incremented counter exceeds the ceiling of 3, the batch is dropped
(the queue is left as it was) and the counter resets to 0. -/
theorem rate_limit_backoff_spec (q batch : List QueueItem) (retry : Nat)
    (j1 j2 : ℚ) (hj1 : 0 < j1 ∧ j1 < 1) (hj2 : 0 < j2 ∧ j2 < 1)
    (hlen : batch.length + q.length ≤ QUEUE_MAXLEN) :
    (retry + 1 ≤ MAX_RETRIES →
      handle_rate_limit q retry batch j1 =
        { queue := batch ++ q, retry_count := retry + 1,
          wait := some (2 ^ (retry + 1) + j1) }) ∧
    (retry + 2 ≤ MAX_RETRIES →
      ∃ w1 w2, (handle_rate_limit q retry batch j1).wait = some w1 ∧
        (handle_rate_limit (requeueFront q batch) (retry + 1) batch j2).wait
          = some w2 ∧ w1 < w2) ∧
    (MAX_RETRIES < retry + 1 →
      handle_rate_limit q retry batch j1 =
        { queue := q, retry_count := 0, wait := none }) := by
  refine ⟨?_, ?_, ?_⟩
  · intro h
    unfold handle_rate_limit
    rw [if_pos h, requeueFront_eq _ _ hlen]
  · intro h
    refine ⟨2 ^ (retry + 1) + j1, 2 ^ (retry + 2) + j2, ?_, ?_, ?_⟩
    · unfold handle_rate_limit
      rw [if_pos (by omega)]
    · unfold handle_rate_limit
      rw [if_pos (by omega)]
    · have hx : (1 : ℚ) ≤ 2 ^ (retry + 1) := one_le_pow₀ (by norm_num)
      have hs : (2 : ℚ) ^ (retry + 2) = 2 ^ (retry + 1) * 2 :=
        pow_succ 2 (retry + 1)
      linarith [hj1.2, hj2.1]
  · intro h
    unfold handle_rate_limit
    rw [if_neg (by omega)]

/-- Closed instance of C1, the spec scenario: a 3-item batch, counter 0.
The first failure restores the 3 items in order with counter 1; the
second failure would wait strictly longer; with the counter at the
ceiling a further failure drops the batch and resets the counter. -/
theorem rate_limit_backoff_spec_witness :
    (0 < (1 / 2 : ℚ) ∧ (1 / 2 : ℚ) < 1) ∧
    ([itemA, itemB, itemA].length + ([] : List QueueItem).length ≤ QUEUE_MAXLEN) ∧
    handle_rate_limit [] 0 [itemA, itemB, itemA] (1 / 2) =
      { queue := [itemA, itemB, itemA], retry_count := 1,
        wait := some (2 ^ 1 + 1 / 2) } ∧
    (∃ w1 w2, (handle_rate_limit [] 0 [itemA, itemB, itemA] (1 / 2)).wait
        = some w1 ∧
      (handle_rate_limit (requeueFront [] [itemA, itemB, itemA]) 1
        [itemA, itemB, itemA] (1 / 2)).wait = some w2 ∧ w1 < w2) ∧
    handle_rate_limit [] 3 [itemA, itemB, itemA] (1 / 2) =
      { queue := [], retry_count := 0, wait := none } := by
  have hj : 0 < (1 / 2 : ℚ) ∧ (1 / 2 : ℚ) < 1 := ⟨by norm_num, by norm_num⟩
  have h0 := rate_limit_backoff_spec [] [itemA, itemB, itemA] 0 (1 / 2) (1 / 2)
    hj hj (by simp [QUEUE_MAXLEN])
  have h3 := rate_limit_backoff_spec [] [itemA, itemB, itemA] 3 (1 / 2) (1 / 2)
    hj hj (by simp [QUEUE_MAXLEN])
  exact ⟨hj, by simp [QUEUE_MAXLEN], h0.1 (by decide), h0.2.1 (by decide),
    h3.2.2 (by decide)⟩

/-! ## The message-received handler (src/bot/cogs/sentiment.py) -/

/-- The characters stripped by Python `str.strip()` (ASCII fragment). -/
def isPySpace (c : Char) : Bool :=
  c == ' ' || c == '\t' || c == '\n' || c == '\x0b' || c == '\x0c' || c == '\r'

/-- The fields of the incoming platform message that `on_message` reads.
`guild` is `none` for a direct message. -/
structure IncomingMessage where
  author_bot : Bool
  guild : Option Nat
  content : List Char
  channel_id : Nat
  channel_name : String
  message_id : Nat
  author_id : Nat
  author_name : String
  created_at : Nat
  jump_url : String

/-- `SentimentAnalyzer.on_message`: ignore bot authors, direct messages,
empty or whitespace-only content, unmonitored channels and messages that
mention no monitored app; otherwise enqueue the captured envelope with
the content truncated to 1000 characters.  (Python
`not content or not content.strip()` is exactly: every character of the
content is whitespace, the empty content included.) -/
def on_message (msg : IncomingMessage) (q : List QueueItem) : List QueueItem :=
  if msg.author_bot then q
  else
    match msg.guild with
    | none => q
    | some g =>
      if msg.content.all isPySpace then q
      else if toString msg.channel_id ∈ MONITORED_CHANNEL_IDS then
        let apps := mentions_monitored_app msg.content
        if apps.isEmpty then q
        else
          dequeAppend q
            { guild_id := toString g,
              channel_id := toString msg.channel_id,
              channel_name := msg.channel_name,
              message_id := toString msg.message_id,
              author_id := toString msg.author_id,
              author_name := msg.author_name,
              content := msg.content.take 1000,
              apps_mentioned := apps,
              timestamp := msg.created_at,
              jump_url := msg.jump_url }
      else q

/-- C9: each of the five guards (bot author, direct message, blank
content, unmonitored channel, no app mention) leaves the queue unchanged;
a message passing all five is enqueued with its content truncated to
1000 characters at capture. -/
theorem on_message_guards_spec (msg : IncomingMessage) (q : List QueueItem) :
    (msg.author_bot = true → on_message msg q = q) ∧
    (msg.guild = none → on_message msg q = q) ∧
    (msg.content.all isPySpace = true → on_message msg q = q) ∧
    (toString msg.channel_id ∉ MONITORED_CHANNEL_IDS → on_message msg q = q) ∧
    (mentions_monitored_app msg.content = [] → on_message msg q = q) ∧
    (∀ g, msg.author_bot = false → msg.guild = some g →
      msg.content.all isPySpace = false →
      toString msg.channel_id ∈ MONITORED_CHANNEL_IDS →
      mentions_monitored_app msg.content ≠ [] →
      on_message msg q = dequeAppend q
        { guild_id := toString g,
          channel_id := toString msg.channel_id,
          channel_name := msg.channel_name,
          message_id := toString msg.message_id,
          author_id := toString msg.author_id,
          author_name := msg.author_name,
          content := msg.content.take 1000,
          apps_mentioned := mentions_monitored_app msg.content,
          timestamp := msg.created_at,
          jump_url := msg.jump_url }) := by
  refine ⟨?_, ?_, ?_, ?_, ?_, ?_⟩
  · intro h; simp [on_message, h]
  · intro h; simp [on_message, h]
  · intro h; unfold on_message; cases msg.guild <;> simp [h]
  · intro h; unfold on_message; cases msg.guild <;> simp [h]
  · intro h; unfold on_message; cases msg.guild <;> simp [h]
  · intro g hbot hg hws hch hm
    unfold on_message
    rw [hg]
    simp only [hbot, Bool.false_eq_true, if_false, hws, if_pos hch,
      List.isEmpty_iff]
    rw [if_neg hm]

/-- A concrete incoming message passing every guard of `on_message`
(monitored channel, app mention, human author, guild present). -/
def okMsg : IncomingMessage :=
  { author_bot := false, guild := some 123456789,
    content := "Cora keeps crashing when I try to export".toList,
    channel_id := 1019678288618205294, channel_name := "discussions",
    message_id := 999888777, author_id := 444555666,
    author_name := "TestUser", created_at := 0,
    jump_url := "https://discord.com/channels/1/2/3" }

/-- The same message sent by a bot author. -/
def botMsg : IncomingMessage := { okMsg with author_bot := true }

/-- Closed instance of C9: the bot-authored message leaves the queue
unchanged; the passing message is enqueued truncated. -/
theorem on_message_guards_spec_witness :
    (okMsg.author_bot = false ∧ okMsg.guild = some 123456789 ∧
      okMsg.content.all isPySpace = false ∧
      toString okMsg.channel_id ∈ MONITORED_CHANNEL_IDS ∧
      mentions_monitored_app okMsg.content ≠ []) ∧
    on_message botMsg [] = [] ∧
    on_message okMsg [] = dequeAppend []
      { guild_id := toString (123456789 : Nat),
        channel_id := toString okMsg.channel_id,
        channel_name := okMsg.channel_name,
        message_id := toString okMsg.message_id,
        author_id := toString okMsg.author_id,
        author_name := okMsg.author_name,
        content := okMsg.content.take 1000,
        apps_mentioned := mentions_monitored_app okMsg.content,
        timestamp := okMsg.created_at,
        jump_url := okMsg.jump_url } := by
  refine ⟨⟨rfl, rfl, by decide, by decide, by decide⟩,
    (on_message_guards_spec botMsg []).1 rfl, ?_⟩
  exact (on_message_guards_spec okMsg []).2.2.2.2.2 123456789 rfl rfl
    (by decide) (by decide) (by decide)

/-! ## The Digest generator (src/bot/analyzer.py, src/bot/cogs/scheduler.py)

`FeedbackAnalyzer.analyze_batch` and `DailySummaryScheduler.generate_summary`.
The external model call is an explicit parameter: `ModelCall.reply` is a
successful `client.messages.create` returning the reply text,
`ModelCall.failure` is any exception raised by it (carrying `str(e)`).
The result pairs the digest text with a flag telling whether the external
model was invoked. -/

/-- `TEAM_MEMBERS` of src/bot/analyzer.py. -/
def TEAM_MEMBERS : List (List Char) :=
  ["naveen_z".toList, "kieran_2".toList, "yash49494".toList,
   "marcusevery".toList]

/-- The fixed literal returned for an empty fetch. -/
def NO_NEW_LITERAL : String := "Nothing new found. Check back later."

/-- The fixed literal returned when every message is team-authored. -/
def ONLY_TEAM_LITERAL : String :=
  "Only team member messages found. No user feedback to analyze."

/-- One fetched message as assembled by
`DailySummaryScheduler._fetch_recent_messages`. -/
structure DigestMessage where
  content : String
  author : String
  channel : String
  timestamp : String
  jump_url : String
deriving DecidableEq

/-- The outcome of the one external model call of `analyze_batch`. -/
inductive ModelCall where
  | reply (text : String)
  | failure (err : String)

/-- The handle part of an author tag: `author.split('#')[0].lower()`. -/
def author_handle (author : String) : List Char :=
  lowerChars (author.toList.takeWhile (fun c => c ≠ '#'))

/-- The team-member exclusion test of `analyze_batch`. -/
def is_team_member (author : String) : Bool :=
  decide (author_handle author ∈ TEAM_MEMBERS)

/-- The per-message line of the composite prompt:
`[#channel] author (jump_url): content`. -/
def format_message (m : DigestMessage) : String :=
  "[#" ++ m.channel ++ "] " ++ m.author ++ " (" ++ m.jump_url ++ "): "
    ++ m.content

/-- `FeedbackAnalyzer.analyze_batch`: empty input short-circuits to the
fixed no-new literal; then team-authored messages are filtered out; an
empty remainder short-circuits to the fixed only-team literal; otherwise
the model is called once (on the composite prompt built from
`format_message` lines) and its reply is returned verbatim, or the
literal `Error: <e>` on failure.  The returned flag records whether the
model was invoked. -/
def analyze_batch (msgs : List DigestMessage) (call : ModelCall) :
    String × Bool :=
  if msgs.isEmpty then (NO_NEW_LITERAL, false)
  else
    let filtered := msgs.filter (fun m => ! is_team_member m.author)
    if filtered.isEmpty then (ONLY_TEAM_LITERAL, false)
    else
      match call with
      | .reply t => (t, true)
      | .failure e => ("Error: " ++ e, true)

/-- `DailySummaryScheduler.generate_summary`: an empty fetch returns the
fixed no-new literal and an empty list without calling the analyzer. -/
def generate_summary (fetched : List DigestMessage) (call : ModelCall) :
    String × List DigestMessage :=
  if fetched.isEmpty then (NO_NEW_LITERAL, [])
  else ((analyze_batch fetched call).1, fetched)

/-- A fetched message from a team author carrying a discriminator. -/
def teamMsg1 : DigestMessage :=
  { content := "replying to a user", author := "naveen_z#1234",
    channel := "discussions", timestamp := "t1", jump_url := "url1" }

/-- A fetched message from a team author in mixed case. -/
def teamMsg2 : DigestMessage :=
  { content := "another reply", author := "MarcusEvery",
    channel := "main", timestamp := "t2", jump_url := "url2" }

/-- A fetched message from an ordinary user. -/
def userMsg : DigestMessage :=
  { content := "Cora keeps crashing", author := "SomeUser#42",
    channel := "discussions", timestamp := "t3", jump_url := "url3" }

/-- C6: the digest excludes exactly the messages whose author handle
(the part before the `#` discriminator, lowercased) is in the fixed
team allow-list, and whenever a non-empty input is entirely excluded it
returns the fixed only-team literal without invoking the model. -/
theorem digest_team_filter_spec (msgs : List DigestMessage)
    (call : ModelCall) (hne : msgs ≠ [])
    (hall : ∀ m ∈ msgs,
      lowerChars (m.author.toList.takeWhile (fun c => c ≠ '#'))
        ∈ TEAM_MEMBERS) :
    analyze_batch msgs call = (ONLY_TEAM_LITERAL, false) := by
  unfold analyze_batch
  rw [if_neg (by simp [List.isEmpty_iff, hne])]
  have hfil : msgs.filter (fun m => ! is_team_member m.author) = [] := by
    rw [List.filter_eq_nil_iff]
    intro m hm
    have h : is_team_member m.author = true := decide_eq_true (hall m hm)
    simp [h]
  simp [hfil]

/-- Closed instance of C6, the spec scenario: two messages from
allow-listed team authors (one with a discriminator, one in mixed case)
yield the fixed only-team literal with no model call. -/
theorem digest_team_filter_spec_witness :
    ([teamMsg1, teamMsg2] ≠ ([] : List DigestMessage)) ∧
    (∀ m ∈ [teamMsg1, teamMsg2],
      lowerChars (m.author.toList.takeWhile (fun c => c ≠ '#'))
        ∈ TEAM_MEMBERS) ∧
    analyze_batch [teamMsg1, teamMsg2] (.reply "model output")
      = (ONLY_TEAM_LITERAL, false) := by
  refine ⟨by decide, by decide, ?_⟩
  exact digest_team_filter_spec [teamMsg1, teamMsg2] (.reply "model output")
    (by decide) (by decide)

/-- C7: whenever the model is actually invoked (the filtered list is
non-empty), a successful call returns the reply verbatim and a failed
call returns the literal `Error: <message>`; in both cases
`analyze_batch` is a total function, so no failure escapes it. -/
theorem digest_error_string_spec (msgs : List DigestMessage) (r e : String)
    (h : msgs.filter (fun m => ! is_team_member m.author) ≠ []) :
    analyze_batch msgs (.reply r) = (r, true) ∧
    analyze_batch msgs (.failure e) = ("Error: " ++ e, true) := by
  have hne : msgs ≠ [] := by
    intro hnil; rw [hnil] at h; simp at h
  constructor <;>
    · unfold analyze_batch
      rw [if_neg (by simp [List.isEmpty_iff, hne])]
      rw [if_neg (by simp [List.isEmpty_iff, h])]

/-- Closed instance of C7 on a one-user-message input: the reply is
passed through verbatim on success and wrapped as `Error: boom` on
failure. -/
theorem digest_error_string_spec_witness :
    ([userMsg].filter (fun m => ! is_team_member m.author) ≠ []) ∧
    analyze_batch [userMsg] (.reply "the digest text")
      = ("the digest text", true) ∧
    analyze_batch [userMsg] (.failure "boom") = ("Error: " ++ "boom", true) := by
  refine ⟨by decide, ?_, ?_⟩
  · exact (digest_error_string_spec [userMsg] "the digest text" "boom"
      (by decide)).1
  · exact (digest_error_string_spec [userMsg] "the digest text" "boom"
      (by decide)).2

/-- C10: an empty message list produces the fixed no-new literal, in
`analyze_batch` and in `generate_summary` alike, without invoking the
model; that literal is distinct from the all-team-members literal. -/
theorem digest_empty_input_spec (call : ModelCall) :
    analyze_batch [] call = (NO_NEW_LITERAL, false) ∧
    generate_summary [] call = (NO_NEW_LITERAL, []) ∧
    NO_NEW_LITERAL ≠ ONLY_TEAM_LITERAL := by
  refine ⟨by simp [analyze_batch], by simp [generate_summary], by decide⟩

/-! ## Persistence (src/bot/database.py, src/tests/test_database.py) -/

/-- One row of the feedback table, with the fields used by
`_analyze_batch` and the database tests. -/
structure FeedbackRecord where
  guild_id : String
  channel_id : String
  channel_name : String
  message_id : String
  author_id : String
  author_name : String
  content : String
  apps_mentioned : String
  sentiment : String
  feedback_type : String
  summary : String
  actionable : Bool
  message_timestamp : Nat
  jump_url : String
deriving DecidableEq

/-- Modelled from the spec: `Database.insert_feedback_record` is called by
`_store_results` and exercised by the database tests, but the method body
is absent from `src/bot/database.py`, which only creates the table with a
`message_id TEXT UNIQUE` column.  Per the spec, `message_id` is the
upsert key: re-insertion with the same id replaces the row in place, not
appends.  The table is the list of live rows in insertion order. -/
def insert_feedback_record (db : List FeedbackRecord)
    (r : FeedbackRecord) : List FeedbackRecord :=
  if db.any (fun x => x.message_id == r.message_id) then
    db.map (fun x => if x.message_id == r.message_id then r else x)
  else db ++ [r]

theorem map_upsert_eq_self (db : List FeedbackRecord) (r : FeedbackRecord)
    (h : ∀ x ∈ db, x.message_id ≠ r.message_id) :
    db.map (fun x => if x.message_id == r.message_id then r else x) = db := by
  induction db with
  | nil => rfl
  | cons a rest ih =>
    simp only [List.map_cons]
    rw [if_neg (by simpa using h a (by simp)),
      ih (fun x hx => h x (by simp [hx]))]

theorem filter_fresh_nil (db : List FeedbackRecord) (r : FeedbackRecord)
    (h : ∀ x ∈ db, x.message_id ≠ r.message_id) :
    db.filter (fun x => x.message_id == r.message_id) = [] := by
  rw [List.filter_eq_nil_iff]
  intro x hx
  simpa using h x hx

/-- C3: inserting two records carrying the same `message_id` into a table
that does not yet hold that id leaves exactly one live record under that
id, and its fields are those of the second insert. -/
theorem upsert_replaces_spec (db : List FeedbackRecord)
    (r1 r2 : FeedbackRecord) (hid : r1.message_id = r2.message_id)
    (hfresh : ∀ x ∈ db, x.message_id ≠ r1.message_id) :
    (insert_feedback_record (insert_feedback_record db r1) r2).filter
      (fun x => x.message_id == r2.message_id) = [r2] := by
  have hfresh2 : ∀ x ∈ db, x.message_id ≠ r2.message_id := by
    intro x hx
    rw [← hid]
    exact hfresh x hx
  have hany1 : db.any (fun x => x.message_id == r1.message_id) = false := by
    rw [List.any_eq_false]
    intro x hx
    simpa using hfresh x hx
  have hstep1 : insert_feedback_record db r1 = db ++ [r1] := by
    unfold insert_feedback_record
    rw [hany1]
    simp
  have hany2 :
      (db ++ [r1]).any (fun x => x.message_id == r2.message_id) = true := by
    rw [List.any_eq_true]
    exact ⟨r1, by simp, by simp [hid]⟩
  rw [hstep1]
  unfold insert_feedback_record
  rw [hany2]
  simp only [if_true]
  rw [List.map_append, map_upsert_eq_self db r2 hfresh2]
  simp only [List.map_cons, List.map_nil, hid, beq_self_eq_true, if_true]
  rw [List.filter_append, filter_fresh_nil db r2 hfresh2]
  simp

/-- Two concrete records sharing a message id, mirroring the upsert
test of test_database.py. -/
def recordV1 : FeedbackRecord :=
  { guild_id := "123456789", channel_id := "111222333",
    channel_name := "discussions", message_id := "999888777",
    author_id := "444555666", author_name := "TestUser",
    content := "Original content", apps_mentioned := "cora",
    sentiment := "neutral", feedback_type := "general",
    summary := "Original summary", actionable := false,
    message_timestamp := 10, jump_url := "url" }

/-- The re-inserted record under the same message id. -/
def recordV2 : FeedbackRecord :=
  { recordV1 with
    content := "Updated content", sentiment := "negative",
    feedback_type := "bug", summary := "Updated summary",
    actionable := true }

/-- Closed instance of C3: re-inserting under message id 999888777 into
an initially empty table leaves a single live record, the updated one. -/
theorem upsert_replaces_spec_witness :
    (recordV1.message_id = recordV2.message_id) ∧
    (insert_feedback_record (insert_feedback_record [] recordV1)
      recordV2).filter (fun x => x.message_id == recordV2.message_id)
      = [recordV2] := by
  exact ⟨rfl, upsert_replaces_spec [] recordV1 recordV2 rfl
    (by intro x hx; cases hx)⟩

/-! ## Classifier reply parsing (src/bot/cogs/sentiment.py, _analyze_batch)

The JSON decoder is the external Python stdlib `json.loads`; it is an
explicit parameter `decode`, returning `none` exactly where `json.loads`
raises.  A `none` result of `parse_response` is the per-message
exception path of `_analyze_batch`: the outer handler logs and drops the
message, producing no record at all. -/

/-- The structured classifier result parsed out of the model reply. -/
structure FeedbackData where
  sentiment : String
  feedback_type : String
  summary : String
  actionable : Bool
deriving DecidableEq

/-- The opening brace character. -/
def lbrace : Char := Char.ofNat 123

/-- The closing brace character. -/
def rbrace : Char := Char.ofNat 125

/-- The first match of the regex: an opening brace, one or more
characters other than a closing brace, then a closing brace — the
DOTALL search of `_analyze_batch`. -/
def find_brace : List Char → Option (List Char)
  | [] => none
  | c :: rest =>
    if c = lbrace then
      let inner := rest.takeWhile (fun x => x ≠ rbrace)
      if inner.isEmpty then find_brace rest
      else if inner.length < rest.length then
        some (lbrace :: (inner ++ [rbrace]))
      else find_brace rest
    else find_brace rest

/-- The default structured result stored when no JSON is found at all:
neutral, general, the message content truncated to 100 characters as
summary, not actionable. -/
def default_data (content : List Char) : FeedbackData :=
  { sentiment := "neutral", feedback_type := "general",
    summary := ⟨content.take 100⟩, actionable := false }

/-- The reply-parsing logic of `_analyze_batch`: try the whole reply;
on failure search for the first brace-delimited run and try that (a
failure here re-raises and the message is dropped); with no match at
all, fall back to the default record. -/
def parse_response (decode : List Char → Option FeedbackData)
    (reply content : List Char) : Option FeedbackData :=
  match decode reply with
  | some d => some d
  | none =>
    match find_brace reply with
    | some sub => decode sub
    | none => some (default_data content)

/-- The behavior of the external `json.loads` on every string arising in
the C4 runs below: none of them is valid JSON, so each call raises,
that is, returns `none`. -/
def json_rejects : List Char → Option FeedbackData := fun _ => none

/-- The reply text of the counterexample: braces around plain words. -/
def braceReply : List Char := "\x7bnot json\x7d".toList

/-- C4, counterexample: the reply `braceReply` is not directly parseable
and contains no parseable brace-delimited substring — its only
brace-delimited run is the whole text, itself unparseable.  The claim
promises the default record, but the second `json.loads` raises and the
per-message handler drops the message: no record is produced. -/
theorem parse_claim_counterexample :
    json_rejects braceReply = none ∧
    find_brace braceReply = some braceReply ∧
    parse_response json_rejects braceReply "some content".toList = none ∧
    parse_response json_rejects braceReply "some content".toList ≠
      some (default_data "some content".toList) := by
  exact ⟨rfl, by decide, rfl, by decide⟩

/-- C4, amended: a reply that fails direct parsing and in which the
brace search finds no match does not fail the call: it yields the
default record with sentiment neutral, type general, summary equal to
the content truncated to 100 characters, actionable false.  (A reply
whose brace extract also fails to parse is instead dropped by the
per-message handler — see the counterexample.) -/
theorem parse_default_no_brace_spec
    (decode : List Char → Option FeedbackData) (reply content : List Char)
    (hdirect : decode reply = none) (hbrace : find_brace reply = none) :
    parse_response decode reply content = some (default_data content) := by
  unfold parse_response
  rw [hdirect, hbrace]

/-- Closed instance of the amended C4: a braceless unparseable reply
yields the default record, with the long message content truncated to
100 characters in the summary. -/
theorem parse_default_no_brace_spec_witness :
    json_rejects "no structured data here".toList = none ∧
    find_brace "no structured data here".toList = none ∧
    parse_response json_rejects "no structured data here".toList
        (List.replicate 120 'x') =
      some { sentiment := "neutral", feedback_type := "general",
             summary := ⟨List.replicate 100 'x'⟩, actionable := false } := by
  refine ⟨rfl, by decide, ?_⟩
  rw [parse_default_no_brace_spec json_rejects "no structured data here".toList
    (List.replicate 120 'x') rfl (by decide)]
  decide

end SentimentBot
